import Mathlib

/-!
Verification of `ConvertRMMVTileFormatToTiledAutoTile.py`.

The program decodes one raster image, allocates a 192×96 RGB canvas filled
with color (10,10,10), then for ten fixed (source-rect, destination-rect)
pairs crops the source and pastes the crop onto the canvas, and saves the
canvas as `converted.png`.

The embedding models a raster as a total pixel function together with its
dimensions.  The imaging-library primitives used by the script are modelled
with their documented semantics:
* `crop box` always succeeds and produces an image of the box's size; any
  part of the box lying outside the source raster is filled with black
  (0,0,0) rather than raising an error;
* `paste img box` with a four-sided box requires the box's size to equal
  the pasted image's size, and otherwise fails (`none`); on success it
  overwrites exactly the box region of the canvas.
-/

/-- An RGB color triple, as produced by the `RGB` mode of the imaging
library. -/
abbrev Color : Type := Nat × Nat × Nat

/-- A rectangle `(left, top, right, bottom)` in pixel coordinates, the tuple
shape used throughout the script. -/
structure Rect where
  left : Nat
  top : Nat
  right : Nat
  bottom : Nat
deriving DecidableEq, Repr

/-- A raster image: its dimensions together with a total pixel function.
Only the values at coordinates `x < width`, `y < height` are meaningful. -/
structure Image where
  width : Nat
  height : Nat
  pix : Nat → Nat → Color

/-- `(x, y)` lies inside rectangle `r` (left/top inclusive, right/bottom
exclusive, the convention of the imaging library). -/
def inRect (r : Rect) (x y : Nat) : Prop :=
  r.left ≤ x ∧ x < r.right ∧ r.top ≤ y ∧ y < r.bottom

instance (r : Rect) (x y : Nat) : Decidable (inRect r x y) := by
  unfold inRect; infer_instance

/-- `Image.new size color` (line 16): a freshly allocated raster filled
uniformly with `color`. -/
def Image.new (w h : Nat) (c : Color) : Image :=
  { width := w, height := h, pix := fun _ _ => c }

/-- `im.crop box` (line 45): the sub-image bounded by `box`, of size
`(right-left) × (bottom-top)`.  A pixel of the box that falls outside the
source raster reads as black `(0,0,0)`; the operation never fails. -/
def Image.crop (im : Image) (r : Rect) : Image :=
  { width := r.right - r.left
    height := r.bottom - r.top
    pix := fun x y =>
      if r.left + x < im.width ∧ r.top + y < im.height then
        im.pix (r.left + x) (r.top + y)
      else (0, 0, 0) }

/-- The pixel content produced by a successful `paste`: inside `box` the
pasted image (shifted so its top-left lands on the box's top-left), outside
`box` the canvas is untouched. -/
def Image.pasteContent (canvas im : Image) (box : Rect) : Image :=
  { width := canvas.width
    height := canvas.height
    pix := fun x y =>
      if inRect box x y then im.pix (x - box.left) (y - box.top)
      else canvas.pix x y }

/-- `canvas.paste im box` (line 46) with a four-sided `box`: succeeds only
when the box's size equals `im`'s size, and otherwise fails with a
size-mismatch error (modelled as `none`). -/
def Image.paste (canvas im : Image) (box : Rect) : Option Image :=
  if box.right - box.left = im.width ∧ box.bottom - box.top = im.height then
    some (Image.pasteContent canvas im box)
  else none

/-- `muted` (line 14): the background fill color of the destination
canvas. -/
def muted : Color := (10, 10, 10)

/-- `final_size` (line 15): the fixed dimensions of the destination
canvas. -/
def final_size : Nat × Nat := (192, 96)

/- The ten source rectangles (lines 19–28). -/

def c_lor : Rect := ⟨48, 0, 72, 24⟩
def c_lol : Rect := ⟨72, 0, 96, 24⟩
def c_upr : Rect := ⟨48, 24, 72, 48⟩
def c_upl : Rect := ⟨72, 24, 96, 48⟩
def e_up : Rect := ⟨24, 120, 72, 144⟩
def e_lo : Rect := ⟨24, 48, 72, 72⟩
def e_ri : Rect := ⟨72, 72, 96, 120⟩
def e_le : Rect := ⟨0, 72, 24, 120⟩
def center : Rect := ⟨24, 72, 72, 120⟩
def retain : Rect := ⟨0, 48, 96, 144⟩

/- The ten destination rectangles (lines 30–39). -/

def fc_lor : Rect := ⟨72, 72, 96, 96⟩
def fc_lol : Rect := ⟨0, 72, 24, 96⟩
def fc_upr : Rect := ⟨72, 0, 96, 24⟩
def fc_upl : Rect := ⟨0, 0, 24, 24⟩
def fe_up : Rect := ⟨24, 0, 72, 24⟩
def fe_lo : Rect := ⟨24, 72, 72, 96⟩
def fe_ri : Rect := ⟨0, 24, 24, 72⟩
def fe_le : Rect := ⟨72, 24, 96, 72⟩
def fcenter : Rect := ⟨24, 24, 72, 72⟩
def fretain : Rect := ⟨96, 0, 192, 96⟩

/-- `regions` (line 41): the ordered list of source rectangles. -/
def regions : List Rect :=
  [c_lor, c_lol, c_upr, c_upl, e_up, e_lo, e_ri, e_le, center, retain]

/-- `fregions` (line 42): the ordered list of destination rectangles. -/
def fregions : List Rect :=
  [fc_lor, fc_lol, fc_upr, fc_upl, fe_up, fe_lo, fe_ri, fe_le, fcenter, fretain]

/-- The fixed filename passed to `final_im.save` (line 49). -/
def outputFileName : String := "converted.png"

/-- The conversion loop (lines 16 and 44–46): allocate the 192×96 canvas
filled with `muted`, then for each region pair in order crop the source and
paste the crop at the destination rectangle.  Any paste failure aborts the
run (`none`). -/
def convert (start_im : Image) : Option Image :=
  (regions.zip fregions).foldl
    (fun acc pr => acc.bind fun canvas =>
      canvas.paste (start_im.crop pr.1) pr.2)
    (some (Image.new 192 96 muted))

/-- The canvas produced by the loop, written out as the explicit chain of
the ten successful pastes (every size check in `convert` passes, see
`convert_eq`). -/
def final_im (start_im : Image) : Image :=
  Image.pasteContent
    (Image.pasteContent
      (Image.pasteContent
        (Image.pasteContent
          (Image.pasteContent
            (Image.pasteContent
              (Image.pasteContent
                (Image.pasteContent
                  (Image.pasteContent
                    (Image.pasteContent (Image.new 192 96 muted)
                      (start_im.crop c_lor) fc_lor)
                    (start_im.crop c_lol) fc_lol)
                  (start_im.crop c_upr) fc_upr)
                (start_im.crop c_upl) fc_upl)
              (start_im.crop e_up) fe_up)
            (start_im.crop e_lo) fe_lo)
          (start_im.crop e_ri) fe_ri)
        (start_im.crop e_le) fe_le)
      (start_im.crop center) fcenter)
    (start_im.crop retain) fretain

/-- Every size check in the loop passes, so the run always succeeds and
produces exactly the chain of ten pastes. -/
theorem convert_eq (start_im : Image) :
    convert start_im = some (final_im start_im) := rfl

/-- A rectangle lies inside a `w × h` coordinate space, with ordered
coordinates. -/
def rectWithin (r : Rect) (w h : Nat) : Prop :=
  r.left ≤ r.right ∧ r.right ≤ w ∧ r.top ≤ r.bottom ∧ r.bottom ≤ h

instance (r : Rect) (w h : Nat) : Decidable (rectWithin r w h) := by
  unfold rectWithin; infer_instance

/-- The spec's table of ten region pairs, transcribed literally from the
specification (source rect → destination rect, rows 1–10). -/
def specRegionPairs : List (Rect × Rect) :=
  [ (⟨48, 0, 72, 24⟩, ⟨72, 72, 96, 96⟩)
  , (⟨72, 0, 96, 24⟩, ⟨0, 72, 24, 96⟩)
  , (⟨48, 24, 72, 48⟩, ⟨72, 0, 96, 24⟩)
  , (⟨72, 24, 96, 48⟩, ⟨0, 0, 24, 24⟩)
  , (⟨24, 120, 72, 144⟩, ⟨24, 0, 72, 24⟩)
  , (⟨24, 48, 72, 72⟩, ⟨24, 72, 72, 96⟩)
  , (⟨72, 72, 96, 120⟩, ⟨0, 24, 24, 72⟩)
  , (⟨0, 72, 24, 120⟩, ⟨72, 24, 96, 72⟩)
  , (⟨24, 72, 72, 120⟩, ⟨24, 24, 72, 72⟩)
  , (⟨0, 48, 96, 144⟩, ⟨96, 0, 192, 96⟩) ]

/-- C2: the program's static region mapping is exactly the ordered list of
ten (source-rect, destination-rect) pairs of the spec's table, in that
order, and the conversion is the crop-then-paste fold over this fixed list
in this fixed order. -/
theorem mapping_matches_spec_table :
    regions.zip fregions = specRegionPairs ∧
    ∀ start_im : Image,
      convert start_im =
        specRegionPairs.foldl
          (fun acc pr => acc.bind fun canvas =>
            canvas.paste (start_im.crop pr.1) pr.2)
          (some (Image.new 192 96 muted)) :=
  ⟨rfl, fun _ => rfl⟩

/-- C3: for every input image the run succeeds and the persisted output is
the fixed file `converted.png`, a canvas of dimensions exactly 192×96,
independent of the input image's size. -/
theorem output_shape_and_path (start_im : Image) :
    convert start_im = some (final_im start_im) ∧
    (final_im start_im).width = 192 ∧
    (final_im start_im).height = 96 ∧
    outputFileName = "converted.png" :=
  ⟨rfl, rfl, rfl, rfl⟩

/-- C8: every source rectangle lies inside the 96×144 coordinate space and
every destination rectangle lies inside the 192×96 canvas, with ordered
coordinates (`left ≤ right`, `top ≤ bottom`). -/
theorem rects_within_bounds :
    (∀ r ∈ regions, rectWithin r 96 144) ∧
    (∀ r ∈ fregions, rectWithin r 192 96) := by
  constructor <;> decide

/-- Witness for C8 at the first pair: `c_lor` lies in the 96×144 space and
`fc_lor` lies in the 192×96 canvas. -/
theorem rects_within_bounds_witness :
    rectWithin c_lor 96 144 ∧ rectWithin fc_lor 192 96 :=
  ⟨rects_within_bounds.1 c_lor (by simp [regions]),
   rects_within_bounds.2 fc_lor (by simp [fregions])⟩

/-- C10: in every region pair the source and destination rectangles have
exactly equal width and equal height, so every paste's size check passes
and the size-mismatch failure branch is unreachable: the loop always
succeeds. -/
theorem pair_sizes_match :
    (∀ p ∈ regions.zip fregions,
      p.1.right - p.1.left = p.2.right - p.2.left ∧
      p.1.bottom - p.1.top = p.2.bottom - p.2.top) ∧
    ∀ start_im : Image, convert start_im = some (final_im start_im) :=
  ⟨by decide, fun _ => rfl⟩

/-- Witness for C10 at the first pair and a concrete 50×50 image. -/
theorem pair_sizes_match_witness :
    (c_lor.right - c_lor.left = fc_lor.right - fc_lor.left ∧
      c_lor.bottom - c_lor.top = fc_lor.bottom - fc_lor.top) ∧
    convert (Image.new 50 50 (200, 200, 200)) =
      some (final_im (Image.new 50 50 (200, 200, 200))) :=
  ⟨pair_sizes_match.1 (c_lor, fc_lor) (by simp [regions, fregions]),
   pair_sizes_match.2 _⟩
/-- The pixel content of the loop's canvas, written out arithmetically:
the nested conditionals test the destination rectangles in reverse paste
order (a later paste wins where rectangles overlap), and each branch reads
the cropped source pixel at the matching relative offset, black-padded
where the source rectangle leaves the source raster.  Holds by
definitional unfolding of the ten pastes. -/
theorem final_im_pix (im : Image) (x y : Nat) :
    (final_im im).pix x y =
      if 96 ≤ x ∧ x < 192 ∧ 0 ≤ y ∧ y < 96 then
        (if 0 + (x - 96) < im.width ∧ 48 + (y - 0) < im.height then
          im.pix (0 + (x - 96)) (48 + (y - 0)) else (0, 0, 0))
      else if 24 ≤ x ∧ x < 72 ∧ 24 ≤ y ∧ y < 72 then
        (if 24 + (x - 24) < im.width ∧ 72 + (y - 24) < im.height then
          im.pix (24 + (x - 24)) (72 + (y - 24)) else (0, 0, 0))
      else if 72 ≤ x ∧ x < 96 ∧ 24 ≤ y ∧ y < 72 then
        (if 0 + (x - 72) < im.width ∧ 72 + (y - 24) < im.height then
          im.pix (0 + (x - 72)) (72 + (y - 24)) else (0, 0, 0))
      else if 0 ≤ x ∧ x < 24 ∧ 24 ≤ y ∧ y < 72 then
        (if 72 + (x - 0) < im.width ∧ 72 + (y - 24) < im.height then
          im.pix (72 + (x - 0)) (72 + (y - 24)) else (0, 0, 0))
      else if 24 ≤ x ∧ x < 72 ∧ 72 ≤ y ∧ y < 96 then
        (if 24 + (x - 24) < im.width ∧ 48 + (y - 72) < im.height then
          im.pix (24 + (x - 24)) (48 + (y - 72)) else (0, 0, 0))
      else if 24 ≤ x ∧ x < 72 ∧ 0 ≤ y ∧ y < 24 then
        (if 24 + (x - 24) < im.width ∧ 120 + (y - 0) < im.height then
          im.pix (24 + (x - 24)) (120 + (y - 0)) else (0, 0, 0))
      else if 0 ≤ x ∧ x < 24 ∧ 0 ≤ y ∧ y < 24 then
        (if 72 + (x - 0) < im.width ∧ 24 + (y - 0) < im.height then
          im.pix (72 + (x - 0)) (24 + (y - 0)) else (0, 0, 0))
      else if 72 ≤ x ∧ x < 96 ∧ 0 ≤ y ∧ y < 24 then
        (if 48 + (x - 72) < im.width ∧ 24 + (y - 0) < im.height then
          im.pix (48 + (x - 72)) (24 + (y - 0)) else (0, 0, 0))
      else if 0 ≤ x ∧ x < 24 ∧ 72 ≤ y ∧ y < 96 then
        (if 72 + (x - 0) < im.width ∧ 0 + (y - 72) < im.height then
          im.pix (72 + (x - 0)) (0 + (y - 72)) else (0, 0, 0))
      else if 72 ≤ x ∧ x < 96 ∧ 72 ≤ y ∧ y < 96 then
        (if 48 + (x - 72) < im.width ∧ 0 + (y - 72) < im.height then
          im.pix (48 + (x - 72)) (0 + (y - 72)) else (0, 0, 0))
      else muted := rfl

/-- Pixel of the finished canvas inside destination rectangle `fc_lor`:
the source pixel at the same relative offset inside its source rectangle,
black-padded where that offset leaves the source raster. -/
theorem final_pix_fc_lor (im : Image) (x y : Nat) (h1 : 72 ≤ x)
    (h2 : x < 96) (h3 : 72 ≤ y) (h4 : y < 96) :
    (final_im im).pix x y =
      (if 48 + (x - 72) < im.width ∧ 0 + (y - 72) < im.height then
        im.pix (48 + (x - 72)) (0 + (y - 72)) else (0, 0, 0)) := by
  rw [final_im_pix]
  rw [if_neg (by omega : ¬(96 ≤ x ∧ x < 192 ∧ 0 ≤ y ∧ y < 96))]
  rw [if_neg (by omega : ¬(24 ≤ x ∧ x < 72 ∧ 24 ≤ y ∧ y < 72))]
  rw [if_neg (by omega : ¬(72 ≤ x ∧ x < 96 ∧ 24 ≤ y ∧ y < 72))]
  rw [if_neg (by omega : ¬(0 ≤ x ∧ x < 24 ∧ 24 ≤ y ∧ y < 72))]
  rw [if_neg (by omega : ¬(24 ≤ x ∧ x < 72 ∧ 72 ≤ y ∧ y < 96))]
  rw [if_neg (by omega : ¬(24 ≤ x ∧ x < 72 ∧ 0 ≤ y ∧ y < 24))]
  rw [if_neg (by omega : ¬(0 ≤ x ∧ x < 24 ∧ 0 ≤ y ∧ y < 24))]
  rw [if_neg (by omega : ¬(72 ≤ x ∧ x < 96 ∧ 0 ≤ y ∧ y < 24))]
  rw [if_neg (by omega : ¬(0 ≤ x ∧ x < 24 ∧ 72 ≤ y ∧ y < 96))]
  rw [if_pos (⟨h1, h2, h3, h4⟩ : 72 ≤ x ∧ x < 96 ∧ 72 ≤ y ∧ y < 96)]

/-- Pixel of the finished canvas inside destination rectangle `fc_lol`:
the source pixel at the same relative offset inside its source rectangle,
black-padded where that offset leaves the source raster. -/
theorem final_pix_fc_lol (im : Image) (x y : Nat) (h1 : 0 ≤ x)
    (h2 : x < 24) (h3 : 72 ≤ y) (h4 : y < 96) :
    (final_im im).pix x y =
      (if 72 + (x - 0) < im.width ∧ 0 + (y - 72) < im.height then
        im.pix (72 + (x - 0)) (0 + (y - 72)) else (0, 0, 0)) := by
  rw [final_im_pix]
  rw [if_neg (by omega : ¬(96 ≤ x ∧ x < 192 ∧ 0 ≤ y ∧ y < 96))]
  rw [if_neg (by omega : ¬(24 ≤ x ∧ x < 72 ∧ 24 ≤ y ∧ y < 72))]
  rw [if_neg (by omega : ¬(72 ≤ x ∧ x < 96 ∧ 24 ≤ y ∧ y < 72))]
  rw [if_neg (by omega : ¬(0 ≤ x ∧ x < 24 ∧ 24 ≤ y ∧ y < 72))]
  rw [if_neg (by omega : ¬(24 ≤ x ∧ x < 72 ∧ 72 ≤ y ∧ y < 96))]
  rw [if_neg (by omega : ¬(24 ≤ x ∧ x < 72 ∧ 0 ≤ y ∧ y < 24))]
  rw [if_neg (by omega : ¬(0 ≤ x ∧ x < 24 ∧ 0 ≤ y ∧ y < 24))]
  rw [if_neg (by omega : ¬(72 ≤ x ∧ x < 96 ∧ 0 ≤ y ∧ y < 24))]
  rw [if_pos (⟨h1, h2, h3, h4⟩ : 0 ≤ x ∧ x < 24 ∧ 72 ≤ y ∧ y < 96)]

/-- Pixel of the finished canvas inside destination rectangle `fc_upr`:
the source pixel at the same relative offset inside its source rectangle,
black-padded where that offset leaves the source raster. -/
theorem final_pix_fc_upr (im : Image) (x y : Nat) (h1 : 72 ≤ x)
    (h2 : x < 96) (h3 : 0 ≤ y) (h4 : y < 24) :
    (final_im im).pix x y =
      (if 48 + (x - 72) < im.width ∧ 24 + (y - 0) < im.height then
        im.pix (48 + (x - 72)) (24 + (y - 0)) else (0, 0, 0)) := by
  rw [final_im_pix]
  rw [if_neg (by omega : ¬(96 ≤ x ∧ x < 192 ∧ 0 ≤ y ∧ y < 96))]
  rw [if_neg (by omega : ¬(24 ≤ x ∧ x < 72 ∧ 24 ≤ y ∧ y < 72))]
  rw [if_neg (by omega : ¬(72 ≤ x ∧ x < 96 ∧ 24 ≤ y ∧ y < 72))]
  rw [if_neg (by omega : ¬(0 ≤ x ∧ x < 24 ∧ 24 ≤ y ∧ y < 72))]
  rw [if_neg (by omega : ¬(24 ≤ x ∧ x < 72 ∧ 72 ≤ y ∧ y < 96))]
  rw [if_neg (by omega : ¬(24 ≤ x ∧ x < 72 ∧ 0 ≤ y ∧ y < 24))]
  rw [if_neg (by omega : ¬(0 ≤ x ∧ x < 24 ∧ 0 ≤ y ∧ y < 24))]
  rw [if_pos (⟨h1, h2, h3, h4⟩ : 72 ≤ x ∧ x < 96 ∧ 0 ≤ y ∧ y < 24)]

/-- Pixel of the finished canvas inside destination rectangle `fc_upl`:
the source pixel at the same relative offset inside its source rectangle,
black-padded where that offset leaves the source raster. -/
theorem final_pix_fc_upl (im : Image) (x y : Nat) (h1 : 0 ≤ x)
    (h2 : x < 24) (h3 : 0 ≤ y) (h4 : y < 24) :
    (final_im im).pix x y =
      (if 72 + (x - 0) < im.width ∧ 24 + (y - 0) < im.height then
        im.pix (72 + (x - 0)) (24 + (y - 0)) else (0, 0, 0)) := by
  rw [final_im_pix]
  rw [if_neg (by omega : ¬(96 ≤ x ∧ x < 192 ∧ 0 ≤ y ∧ y < 96))]
  rw [if_neg (by omega : ¬(24 ≤ x ∧ x < 72 ∧ 24 ≤ y ∧ y < 72))]
  rw [if_neg (by omega : ¬(72 ≤ x ∧ x < 96 ∧ 24 ≤ y ∧ y < 72))]
  rw [if_neg (by omega : ¬(0 ≤ x ∧ x < 24 ∧ 24 ≤ y ∧ y < 72))]
  rw [if_neg (by omega : ¬(24 ≤ x ∧ x < 72 ∧ 72 ≤ y ∧ y < 96))]
  rw [if_neg (by omega : ¬(24 ≤ x ∧ x < 72 ∧ 0 ≤ y ∧ y < 24))]
  rw [if_pos (⟨h1, h2, h3, h4⟩ : 0 ≤ x ∧ x < 24 ∧ 0 ≤ y ∧ y < 24)]

/-- Pixel of the finished canvas inside destination rectangle `fe_up`:
the source pixel at the same relative offset inside its source rectangle,
black-padded where that offset leaves the source raster. -/
theorem final_pix_fe_up (im : Image) (x y : Nat) (h1 : 24 ≤ x)
    (h2 : x < 72) (h3 : 0 ≤ y) (h4 : y < 24) :
    (final_im im).pix x y =
      (if 24 + (x - 24) < im.width ∧ 120 + (y - 0) < im.height then
        im.pix (24 + (x - 24)) (120 + (y - 0)) else (0, 0, 0)) := by
  rw [final_im_pix]
  rw [if_neg (by omega : ¬(96 ≤ x ∧ x < 192 ∧ 0 ≤ y ∧ y < 96))]
  rw [if_neg (by omega : ¬(24 ≤ x ∧ x < 72 ∧ 24 ≤ y ∧ y < 72))]
  rw [if_neg (by omega : ¬(72 ≤ x ∧ x < 96 ∧ 24 ≤ y ∧ y < 72))]
  rw [if_neg (by omega : ¬(0 ≤ x ∧ x < 24 ∧ 24 ≤ y ∧ y < 72))]
  rw [if_neg (by omega : ¬(24 ≤ x ∧ x < 72 ∧ 72 ≤ y ∧ y < 96))]
  rw [if_pos (⟨h1, h2, h3, h4⟩ : 24 ≤ x ∧ x < 72 ∧ 0 ≤ y ∧ y < 24)]

/-- Pixel of the finished canvas inside destination rectangle `fe_lo`:
the source pixel at the same relative offset inside its source rectangle,
black-padded where that offset leaves the source raster. -/
theorem final_pix_fe_lo (im : Image) (x y : Nat) (h1 : 24 ≤ x)
    (h2 : x < 72) (h3 : 72 ≤ y) (h4 : y < 96) :
    (final_im im).pix x y =
      (if 24 + (x - 24) < im.width ∧ 48 + (y - 72) < im.height then
        im.pix (24 + (x - 24)) (48 + (y - 72)) else (0, 0, 0)) := by
  rw [final_im_pix]
  rw [if_neg (by omega : ¬(96 ≤ x ∧ x < 192 ∧ 0 ≤ y ∧ y < 96))]
  rw [if_neg (by omega : ¬(24 ≤ x ∧ x < 72 ∧ 24 ≤ y ∧ y < 72))]
  rw [if_neg (by omega : ¬(72 ≤ x ∧ x < 96 ∧ 24 ≤ y ∧ y < 72))]
  rw [if_neg (by omega : ¬(0 ≤ x ∧ x < 24 ∧ 24 ≤ y ∧ y < 72))]
  rw [if_pos (⟨h1, h2, h3, h4⟩ : 24 ≤ x ∧ x < 72 ∧ 72 ≤ y ∧ y < 96)]

/-- Pixel of the finished canvas inside destination rectangle `fe_ri`:
the source pixel at the same relative offset inside its source rectangle,
black-padded where that offset leaves the source raster. -/
theorem final_pix_fe_ri (im : Image) (x y : Nat) (h1 : 0 ≤ x)
    (h2 : x < 24) (h3 : 24 ≤ y) (h4 : y < 72) :
    (final_im im).pix x y =
      (if 72 + (x - 0) < im.width ∧ 72 + (y - 24) < im.height then
        im.pix (72 + (x - 0)) (72 + (y - 24)) else (0, 0, 0)) := by
  rw [final_im_pix]
  rw [if_neg (by omega : ¬(96 ≤ x ∧ x < 192 ∧ 0 ≤ y ∧ y < 96))]
  rw [if_neg (by omega : ¬(24 ≤ x ∧ x < 72 ∧ 24 ≤ y ∧ y < 72))]
  rw [if_neg (by omega : ¬(72 ≤ x ∧ x < 96 ∧ 24 ≤ y ∧ y < 72))]
  rw [if_pos (⟨h1, h2, h3, h4⟩ : 0 ≤ x ∧ x < 24 ∧ 24 ≤ y ∧ y < 72)]

/-- Pixel of the finished canvas inside destination rectangle `fe_le`:
the source pixel at the same relative offset inside its source rectangle,
black-padded where that offset leaves the source raster. -/
theorem final_pix_fe_le (im : Image) (x y : Nat) (h1 : 72 ≤ x)
    (h2 : x < 96) (h3 : 24 ≤ y) (h4 : y < 72) :
    (final_im im).pix x y =
      (if 0 + (x - 72) < im.width ∧ 72 + (y - 24) < im.height then
        im.pix (0 + (x - 72)) (72 + (y - 24)) else (0, 0, 0)) := by
  rw [final_im_pix]
  rw [if_neg (by omega : ¬(96 ≤ x ∧ x < 192 ∧ 0 ≤ y ∧ y < 96))]
  rw [if_neg (by omega : ¬(24 ≤ x ∧ x < 72 ∧ 24 ≤ y ∧ y < 72))]
  rw [if_pos (⟨h1, h2, h3, h4⟩ : 72 ≤ x ∧ x < 96 ∧ 24 ≤ y ∧ y < 72)]

/-- Pixel of the finished canvas inside destination rectangle `fcenter`:
the source pixel at the same relative offset inside its source rectangle,
black-padded where that offset leaves the source raster. -/
theorem final_pix_fcenter (im : Image) (x y : Nat) (h1 : 24 ≤ x)
    (h2 : x < 72) (h3 : 24 ≤ y) (h4 : y < 72) :
    (final_im im).pix x y =
      (if 24 + (x - 24) < im.width ∧ 72 + (y - 24) < im.height then
        im.pix (24 + (x - 24)) (72 + (y - 24)) else (0, 0, 0)) := by
  rw [final_im_pix]
  rw [if_neg (by omega : ¬(96 ≤ x ∧ x < 192 ∧ 0 ≤ y ∧ y < 96))]
  rw [if_pos (⟨h1, h2, h3, h4⟩ : 24 ≤ x ∧ x < 72 ∧ 24 ≤ y ∧ y < 72)]

/-- Pixel of the finished canvas inside destination rectangle `fretain`:
the source pixel at the same relative offset inside its source rectangle,
black-padded where that offset leaves the source raster. -/
theorem final_pix_fretain (im : Image) (x y : Nat) (h1 : 96 ≤ x)
    (h2 : x < 192) (h3 : 0 ≤ y) (h4 : y < 96) :
    (final_im im).pix x y =
      (if 0 + (x - 96) < im.width ∧ 48 + (y - 0) < im.height then
        im.pix (0 + (x - 96)) (48 + (y - 0)) else (0, 0, 0)) := by
  rw [final_im_pix]
  rw [if_pos (⟨h1, h2, h3, h4⟩ : 96 ≤ x ∧ x < 192 ∧ 0 ≤ y ∧ y < 96)]
/-- C1: for every source image containing all ten source rectangles
(width ≥ 96, height ≥ 144) and every region pair, every pixel inside the
pair's destination rectangle of the output canvas equals the source pixel
at the same relative offset inside the pair's source rectangle, with no
scaling. -/
theorem region_fidelity (start_im : Image) (hw : 96 ≤ start_im.width)
    (hh : 144 ≤ start_im.height) :
    ∀ p ∈ regions.zip fregions, ∀ x y : Nat, inRect p.2 x y →
      convert start_im = some (final_im start_im) ∧
      (final_im start_im).pix x y =
        start_im.pix (p.1.left + (x - p.2.left)) (p.1.top + (y - p.2.top)) := by
  intro p hp x y hxy
  refine ⟨rfl, ?_⟩
  fin_cases hp
  · obtain ⟨h1, h2, h3, h4⟩ := hxy
    have h1a : 72 ≤ x := h1
    have h2a : x < 96 := h2
    have h3a : 72 ≤ y := h3
    have h4a : y < 96 := h4
    rw [final_pix_fc_lor start_im x y h1a h2a h3a h4a]
    rw [if_pos (⟨by omega, by omega⟩ :
      48 + (x - 72) < start_im.width ∧ 0 + (y - 72) < start_im.height)]
    all_goals rfl
  · obtain ⟨h1, h2, h3, h4⟩ := hxy
    have h1a : 0 ≤ x := h1
    have h2a : x < 24 := h2
    have h3a : 72 ≤ y := h3
    have h4a : y < 96 := h4
    rw [final_pix_fc_lol start_im x y h1a h2a h3a h4a]
    rw [if_pos (⟨by omega, by omega⟩ :
      72 + (x - 0) < start_im.width ∧ 0 + (y - 72) < start_im.height)]
    all_goals rfl
  · obtain ⟨h1, h2, h3, h4⟩ := hxy
    have h1a : 72 ≤ x := h1
    have h2a : x < 96 := h2
    have h3a : 0 ≤ y := h3
    have h4a : y < 24 := h4
    rw [final_pix_fc_upr start_im x y h1a h2a h3a h4a]
    rw [if_pos (⟨by omega, by omega⟩ :
      48 + (x - 72) < start_im.width ∧ 24 + (y - 0) < start_im.height)]
    all_goals rfl
  · obtain ⟨h1, h2, h3, h4⟩ := hxy
    have h1a : 0 ≤ x := h1
    have h2a : x < 24 := h2
    have h3a : 0 ≤ y := h3
    have h4a : y < 24 := h4
    rw [final_pix_fc_upl start_im x y h1a h2a h3a h4a]
    rw [if_pos (⟨by omega, by omega⟩ :
      72 + (x - 0) < start_im.width ∧ 24 + (y - 0) < start_im.height)]
    all_goals rfl
  · obtain ⟨h1, h2, h3, h4⟩ := hxy
    have h1a : 24 ≤ x := h1
    have h2a : x < 72 := h2
    have h3a : 0 ≤ y := h3
    have h4a : y < 24 := h4
    rw [final_pix_fe_up start_im x y h1a h2a h3a h4a]
    rw [if_pos (⟨by omega, by omega⟩ :
      24 + (x - 24) < start_im.width ∧ 120 + (y - 0) < start_im.height)]
    all_goals rfl
  · obtain ⟨h1, h2, h3, h4⟩ := hxy
    have h1a : 24 ≤ x := h1
    have h2a : x < 72 := h2
    have h3a : 72 ≤ y := h3
    have h4a : y < 96 := h4
    rw [final_pix_fe_lo start_im x y h1a h2a h3a h4a]
    rw [if_pos (⟨by omega, by omega⟩ :
      24 + (x - 24) < start_im.width ∧ 48 + (y - 72) < start_im.height)]
    all_goals rfl
  · obtain ⟨h1, h2, h3, h4⟩ := hxy
    have h1a : 0 ≤ x := h1
    have h2a : x < 24 := h2
    have h3a : 24 ≤ y := h3
    have h4a : y < 72 := h4
    rw [final_pix_fe_ri start_im x y h1a h2a h3a h4a]
    rw [if_pos (⟨by omega, by omega⟩ :
      72 + (x - 0) < start_im.width ∧ 72 + (y - 24) < start_im.height)]
    all_goals rfl
  · obtain ⟨h1, h2, h3, h4⟩ := hxy
    have h1a : 72 ≤ x := h1
    have h2a : x < 96 := h2
    have h3a : 24 ≤ y := h3
    have h4a : y < 72 := h4
    rw [final_pix_fe_le start_im x y h1a h2a h3a h4a]
    rw [if_pos (⟨by omega, by omega⟩ :
      0 + (x - 72) < start_im.width ∧ 72 + (y - 24) < start_im.height)]
    all_goals rfl
  · obtain ⟨h1, h2, h3, h4⟩ := hxy
    have h1a : 24 ≤ x := h1
    have h2a : x < 72 := h2
    have h3a : 24 ≤ y := h3
    have h4a : y < 72 := h4
    rw [final_pix_fcenter start_im x y h1a h2a h3a h4a]
    rw [if_pos (⟨by omega, by omega⟩ :
      24 + (x - 24) < start_im.width ∧ 72 + (y - 24) < start_im.height)]
    all_goals rfl
  · obtain ⟨h1, h2, h3, h4⟩ := hxy
    have h1a : 96 ≤ x := h1
    have h2a : x < 192 := h2
    have h3a : 0 ≤ y := h3
    have h4a : y < 96 := h4
    rw [final_pix_fretain start_im x y h1a h2a h3a h4a]
    rw [if_pos (⟨by omega, by omega⟩ :
      0 + (x - 96) < start_im.width ∧ 48 + (y - 0) < start_im.height)]
    all_goals rfl
/-- C1 witness: on a concrete 96×144 source image, the pixel at (72,72) of
the output (the top-left corner of the first pair's destination rectangle)
equals the source pixel at (48,0) (the top-left corner of the first pair's
source rectangle). -/
theorem region_fidelity_witness :
    convert (Image.new 96 144 (5, 6, 7)) =
      some (final_im (Image.new 96 144 (5, 6, 7))) ∧
    (final_im (Image.new 96 144 (5, 6, 7))).pix 72 72 =
      (Image.new 96 144 (5, 6, 7)).pix 48 0 :=
  region_fidelity (Image.new 96 144 (5, 6, 7)) (by decide) (by decide)
    (c_lor, fc_lor) (by decide) 72 72 (by decide)

/-- C4: a pixel lying outside every one of the ten destination rectangles is
untouched by every paste, so it keeps the background fill color `muted`
(in particular this covers every such pixel of the 192×96 canvas). -/
theorem background_preservation (start_im : Image) (x y : Nat)
    (h : ∀ r ∈ fregions, ¬ inRect r x y) :
    convert start_im = some (final_im start_im) ∧
    (final_im start_im).pix x y = muted := by
  refine ⟨rfl, ?_⟩
  rw [final_im_pix]
  rw [if_neg (show ¬(96 ≤ x ∧ x < 192 ∧ 0 ≤ y ∧ y < 96) from
    h fretain (by decide))]
  rw [if_neg (show ¬(24 ≤ x ∧ x < 72 ∧ 24 ≤ y ∧ y < 72) from
    h fcenter (by decide))]
  rw [if_neg (show ¬(72 ≤ x ∧ x < 96 ∧ 24 ≤ y ∧ y < 72) from
    h fe_le (by decide))]
  rw [if_neg (show ¬(0 ≤ x ∧ x < 24 ∧ 24 ≤ y ∧ y < 72) from
    h fe_ri (by decide))]
  rw [if_neg (show ¬(24 ≤ x ∧ x < 72 ∧ 72 ≤ y ∧ y < 96) from
    h fe_lo (by decide))]
  rw [if_neg (show ¬(24 ≤ x ∧ x < 72 ∧ 0 ≤ y ∧ y < 24) from
    h fe_up (by decide))]
  rw [if_neg (show ¬(0 ≤ x ∧ x < 24 ∧ 0 ≤ y ∧ y < 24) from
    h fc_upl (by decide))]
  rw [if_neg (show ¬(72 ≤ x ∧ x < 96 ∧ 0 ≤ y ∧ y < 24) from
    h fc_upr (by decide))]
  rw [if_neg (show ¬(0 ≤ x ∧ x < 24 ∧ 72 ≤ y ∧ y < 96) from
    h fc_lol (by decide))]
  rw [if_neg (show ¬(72 ≤ x ∧ x < 96 ∧ 72 ≤ y ∧ y < 96) from
    h fc_lor (by decide))]

/-- C4 witness: the pixel at (200,0), outside every destination rectangle,
keeps the background fill color. -/
theorem background_preservation_witness :
    convert (Image.new 96 144 (5, 6, 7)) =
      some (final_im (Image.new 96 144 (5, 6, 7))) ∧
    (final_im (Image.new 96 144 (5, 6, 7))).pix 200 0 = muted :=
  background_preservation (Image.new 96 144 (5, 6, 7)) 200 0 (by decide)

/-- Two rectangles separated along an axis have no common point. -/
theorem rect_separated_disjoint (r1 r2 : Rect)
    (h : r1.right ≤ r2.left ∨ r2.right ≤ r1.left ∨
      r1.bottom ≤ r2.top ∨ r2.bottom ≤ r1.top) :
    ∀ x y : Nat, inRect r1 x y → inRect r2 x y → False := by
  intro x y h1 h2
  obtain ⟨a1, a2, a3, a4⟩ := h1
  obtain ⟨b1, b2, b3, b4⟩ := h2
  omega

/-- C9: the ten destination rectangles are pairwise disjoint (so no paste
overwrites another paste's output) and together they cover every pixel of
the 192×96 canvas (so every canvas pixel is written by some paste rather
than keeping the background fill). -/
theorem dest_rects_partition :
    fregions.Pairwise
      (fun r1 r2 => ∀ x y : Nat, inRect r1 x y → inRect r2 x y → False) ∧
    ∀ x y : Nat, x < 192 → y < 96 → ∃ r ∈ fregions, inRect r x y := by
  constructor
  · have hsep : fregions.Pairwise
        (fun r1 r2 => r1.right ≤ r2.left ∨ r2.right ≤ r1.left ∨
          r1.bottom ≤ r2.top ∨ r2.bottom ≤ r1.top) := by decide
    exact hsep.imp (fun h => rect_separated_disjoint _ _ h)
  · intro x y hx hy
    by_cases h1 : 96 ≤ x
    · exact ⟨fretain, by decide,
        show 96 ≤ x ∧ x < 192 ∧ 0 ≤ y ∧ y < 96 by omega⟩
    · by_cases h2 : x < 24
      · by_cases h3 : y < 24
        · exact ⟨fc_upl, by decide,
            show 0 ≤ x ∧ x < 24 ∧ 0 ≤ y ∧ y < 24 by omega⟩
        · by_cases h4 : y < 72
          · exact ⟨fe_ri, by decide,
              show 0 ≤ x ∧ x < 24 ∧ 24 ≤ y ∧ y < 72 by omega⟩
          · exact ⟨fc_lol, by decide,
              show 0 ≤ x ∧ x < 24 ∧ 72 ≤ y ∧ y < 96 by omega⟩
      · by_cases h5 : x < 72
        · by_cases h6 : y < 24
          · exact ⟨fe_up, by decide,
              show 24 ≤ x ∧ x < 72 ∧ 0 ≤ y ∧ y < 24 by omega⟩
          · by_cases h7 : y < 72
            · exact ⟨fcenter, by decide,
                show 24 ≤ x ∧ x < 72 ∧ 24 ≤ y ∧ y < 72 by omega⟩
            · exact ⟨fe_lo, by decide,
                show 24 ≤ x ∧ x < 72 ∧ 72 ≤ y ∧ y < 96 by omega⟩
        · by_cases h8 : y < 24
          · exact ⟨fc_upr, by decide,
              show 72 ≤ x ∧ x < 96 ∧ 0 ≤ y ∧ y < 24 by omega⟩
          · by_cases h9 : y < 72
            · exact ⟨fe_le, by decide,
                show 72 ≤ x ∧ x < 96 ∧ 24 ≤ y ∧ y < 72 by omega⟩
            · exact ⟨fc_lor, by decide,
                show 72 ≤ x ∧ x < 96 ∧ 72 ≤ y ∧ y < 96 by omega⟩

/-- C9 witness: the canvas pixel (0,0) is covered by a destination
rectangle. -/
theorem dest_rects_partition_witness :
    ∃ r ∈ fregions, inRect r 0 0 :=
  dest_rects_partition.2 0 0 (by omega) (by omega)

/-- A concrete 50×50 source image, smaller than the 96×144 minimum the
format assumes, uniformly filled with (200,200,200). -/
def tinyImg : Image := Image.new 50 50 (200, 200, 200)

/-- C5 counterexample: on the 50×50 input the conversion routine does not
fail with any error: it succeeds, and it silently produces a padded output
(output pixel (95,72) is the crop padding color (0,0,0), which is neither
the background fill nor any pixel of the all-(200,200,200) source). -/
theorem bounds_rejection_counterexample :
    tinyImg.width < 96 ∧ tinyImg.height < 144 ∧
    convert tinyImg = some (final_im tinyImg) ∧
    (final_im tinyImg).pix 95 72 = (0, 0, 0) ∧
    tinyImg.pix 95 72 = (200, 200, 200) :=
  ⟨by decide, by decide, rfl, by decide, rfl⟩

/-- C5 amended: given a source image smaller than 96×144, the routine does
not fail: every crop succeeds, the part of a source rectangle lying outside
the source raster is silently filled with black (0,0,0), and a full 192×96
output is still produced.  Concretely: at any destination pixel whose
corresponding source offset leaves the source raster, the output pixel is
(0,0,0). -/
theorem bounds_padding (start_im : Image) :
    ∀ p ∈ regions.zip fregions, ∀ x y : Nat, inRect p.2 x y →
      ¬(p.1.left + (x - p.2.left) < start_im.width ∧
        p.1.top + (y - p.2.top) < start_im.height) →
      convert start_im = some (final_im start_im) ∧
      (final_im start_im).pix x y = (0, 0, 0) := by
  intro p hp x y hxy hout
  refine ⟨rfl, ?_⟩
  fin_cases hp
  · obtain ⟨h1, h2, h3, h4⟩ := hxy
    have h1a : 72 ≤ x := h1
    have h2a : x < 96 := h2
    have h3a : 72 ≤ y := h3
    have h4a : y < 96 := h4
    have houta : ¬(48 + (x - 72) < start_im.width ∧
        0 + (y - 72) < start_im.height) := hout
    rw [final_pix_fc_lor start_im x y h1a h2a h3a h4a]
    rw [if_neg houta]
  · obtain ⟨h1, h2, h3, h4⟩ := hxy
    have h1a : 0 ≤ x := h1
    have h2a : x < 24 := h2
    have h3a : 72 ≤ y := h3
    have h4a : y < 96 := h4
    have houta : ¬(72 + (x - 0) < start_im.width ∧
        0 + (y - 72) < start_im.height) := hout
    rw [final_pix_fc_lol start_im x y h1a h2a h3a h4a]
    rw [if_neg houta]
  · obtain ⟨h1, h2, h3, h4⟩ := hxy
    have h1a : 72 ≤ x := h1
    have h2a : x < 96 := h2
    have h3a : 0 ≤ y := h3
    have h4a : y < 24 := h4
    have houta : ¬(48 + (x - 72) < start_im.width ∧
        24 + (y - 0) < start_im.height) := hout
    rw [final_pix_fc_upr start_im x y h1a h2a h3a h4a]
    rw [if_neg houta]
  · obtain ⟨h1, h2, h3, h4⟩ := hxy
    have h1a : 0 ≤ x := h1
    have h2a : x < 24 := h2
    have h3a : 0 ≤ y := h3
    have h4a : y < 24 := h4
    have houta : ¬(72 + (x - 0) < start_im.width ∧
        24 + (y - 0) < start_im.height) := hout
    rw [final_pix_fc_upl start_im x y h1a h2a h3a h4a]
    rw [if_neg houta]
  · obtain ⟨h1, h2, h3, h4⟩ := hxy
    have h1a : 24 ≤ x := h1
    have h2a : x < 72 := h2
    have h3a : 0 ≤ y := h3
    have h4a : y < 24 := h4
    have houta : ¬(24 + (x - 24) < start_im.width ∧
        120 + (y - 0) < start_im.height) := hout
    rw [final_pix_fe_up start_im x y h1a h2a h3a h4a]
    rw [if_neg houta]
  · obtain ⟨h1, h2, h3, h4⟩ := hxy
    have h1a : 24 ≤ x := h1
    have h2a : x < 72 := h2
    have h3a : 72 ≤ y := h3
    have h4a : y < 96 := h4
    have houta : ¬(24 + (x - 24) < start_im.width ∧
        48 + (y - 72) < start_im.height) := hout
    rw [final_pix_fe_lo start_im x y h1a h2a h3a h4a]
    rw [if_neg houta]
  · obtain ⟨h1, h2, h3, h4⟩ := hxy
    have h1a : 0 ≤ x := h1
    have h2a : x < 24 := h2
    have h3a : 24 ≤ y := h3
    have h4a : y < 72 := h4
    have houta : ¬(72 + (x - 0) < start_im.width ∧
        72 + (y - 24) < start_im.height) := hout
    rw [final_pix_fe_ri start_im x y h1a h2a h3a h4a]
    rw [if_neg houta]
  · obtain ⟨h1, h2, h3, h4⟩ := hxy
    have h1a : 72 ≤ x := h1
    have h2a : x < 96 := h2
    have h3a : 24 ≤ y := h3
    have h4a : y < 72 := h4
    have houta : ¬(0 + (x - 72) < start_im.width ∧
        72 + (y - 24) < start_im.height) := hout
    rw [final_pix_fe_le start_im x y h1a h2a h3a h4a]
    rw [if_neg houta]
  · obtain ⟨h1, h2, h3, h4⟩ := hxy
    have h1a : 24 ≤ x := h1
    have h2a : x < 72 := h2
    have h3a : 24 ≤ y := h3
    have h4a : y < 72 := h4
    have houta : ¬(24 + (x - 24) < start_im.width ∧
        72 + (y - 24) < start_im.height) := hout
    rw [final_pix_fcenter start_im x y h1a h2a h3a h4a]
    rw [if_neg houta]
  · obtain ⟨h1, h2, h3, h4⟩ := hxy
    have h1a : 96 ≤ x := h1
    have h2a : x < 192 := h2
    have h3a : 0 ≤ y := h3
    have h4a : y < 96 := h4
    have houta : ¬(0 + (x - 96) < start_im.width ∧
        48 + (y - 0) < start_im.height) := hout
    rw [final_pix_fretain start_im x y h1a h2a h3a h4a]
    rw [if_neg houta]

/-- C5 amended witness: on the 50×50 input, destination pixel (95,72) (pair
1, source offset (71,0), outside the 50×50 raster) is black padding. -/
theorem bounds_padding_witness :
    convert tinyImg = some (final_im tinyImg) ∧
    (final_im tinyImg).pix 95 72 = (0, 0, 0) :=
  bounds_padding tinyImg (c_lor, fc_lor) (by decide) 95 72 (by decide)
    (by decide)

/-- C6 counterexample: with a four-sided destination box, a paste whose box
size differs from the pasted image's size fails (no image is produced)
instead of placing the crop at the box's top-left corner: pasting the 24×24
crop of `c_lor` into the 48×24 box (0,0,48,24) fails. -/
theorem paste_mismatch_counterexample :
    Image.paste (Image.new 192 96 muted)
      ((Image.new 96 144 (5, 6, 7)).crop c_lor) ⟨0, 0, 48, 24⟩ = none := rfl

/-- C6 amended: in this program every region pair's two rectangles have
equal sizes, so each of the ten pastes succeeds and places the cropped
sub-region with its top-left pixel at the destination rectangle's top-left
corner at the crop's native size; had a pair's sizes differed, the
four-sided-box paste would fail rather than paste unscaled. -/
theorem paste_native_size (canvas start_im : Image) :
    ∀ p ∈ regions.zip fregions,
      canvas.paste (start_im.crop p.1) p.2 =
        some (Image.pasteContent canvas (start_im.crop p.1) p.2) ∧
      ∀ x y : Nat, inRect p.2 x y →
        (Image.pasteContent canvas (start_im.crop p.1) p.2).pix x y =
          (start_im.crop p.1).pix (x - p.2.left) (y - p.2.top) := by
  intro p hp
  fin_cases hp <;> exact ⟨rfl, fun x y hxy => if_pos hxy⟩

/-- C6 amended witness: the first pair's paste succeeds, and the pixel at
the destination's top-left corner (72,72) is the crop's own top-left pixel
(0,0). -/
theorem paste_native_size_witness :
    (Image.new 192 96 muted).paste
        ((Image.new 96 144 (5, 6, 7)).crop c_lor) fc_lor =
      some (Image.pasteContent (Image.new 192 96 muted)
        ((Image.new 96 144 (5, 6, 7)).crop c_lor) fc_lor) ∧
    (Image.pasteContent (Image.new 192 96 muted)
        ((Image.new 96 144 (5, 6, 7)).crop c_lor) fc_lor).pix 72 72 =
      ((Image.new 96 144 (5, 6, 7)).crop c_lor).pix 0 0 := by
  obtain ⟨ha, hb⟩ := paste_native_size (Image.new 192 96 muted)
    (Image.new 96 144 (5, 6, 7)) (c_lor, fc_lor) (by decide)
  exact ⟨ha, hb 72 72 (by decide)⟩

/-- C7: the conversion is a deterministic function of the decoded input
pixels: two source images of equal dimensions that agree on every in-bounds
pixel produce output canvases that agree on every pixel, so two runs on a
fixed input produce identical pixel content. -/
theorem conversion_deterministic (s t : Image) (hw : s.width = t.width)
    (hh : s.height = t.height)
    (hp : ∀ x y : Nat, x < s.width → y < s.height → s.pix x y = t.pix x y)
    (x y : Nat) :
    convert s = some (final_im s) ∧ convert t = some (final_im t) ∧
    (final_im s).pix x y = (final_im t).pix x y := by
  have hp2 : ∀ a b : Nat, a < t.width → b < t.height → s.pix a b = t.pix a b :=
    fun a b ha hb => hp a b (by omega) (by omega)
  refine ⟨rfl, rfl, ?_⟩
  rw [final_im_pix, final_im_pix, hw, hh]
  refine if_ctx_congr Iff.rfl (fun _ => if_ctx_congr Iff.rfl
    (fun hg => hp2 _ _ hg.1 hg.2) (fun _ => rfl)) (fun _ => ?_)
  refine if_ctx_congr Iff.rfl (fun _ => if_ctx_congr Iff.rfl
    (fun hg => hp2 _ _ hg.1 hg.2) (fun _ => rfl)) (fun _ => ?_)
  refine if_ctx_congr Iff.rfl (fun _ => if_ctx_congr Iff.rfl
    (fun hg => hp2 _ _ hg.1 hg.2) (fun _ => rfl)) (fun _ => ?_)
  refine if_ctx_congr Iff.rfl (fun _ => if_ctx_congr Iff.rfl
    (fun hg => hp2 _ _ hg.1 hg.2) (fun _ => rfl)) (fun _ => ?_)
  refine if_ctx_congr Iff.rfl (fun _ => if_ctx_congr Iff.rfl
    (fun hg => hp2 _ _ hg.1 hg.2) (fun _ => rfl)) (fun _ => ?_)
  refine if_ctx_congr Iff.rfl (fun _ => if_ctx_congr Iff.rfl
    (fun hg => hp2 _ _ hg.1 hg.2) (fun _ => rfl)) (fun _ => ?_)
  refine if_ctx_congr Iff.rfl (fun _ => if_ctx_congr Iff.rfl
    (fun hg => hp2 _ _ hg.1 hg.2) (fun _ => rfl)) (fun _ => ?_)
  refine if_ctx_congr Iff.rfl (fun _ => if_ctx_congr Iff.rfl
    (fun hg => hp2 _ _ hg.1 hg.2) (fun _ => rfl)) (fun _ => ?_)
  refine if_ctx_congr Iff.rfl (fun _ => if_ctx_congr Iff.rfl
    (fun hg => hp2 _ _ hg.1 hg.2) (fun _ => rfl)) (fun _ => ?_)
  refine if_ctx_congr Iff.rfl (fun _ => if_ctx_congr Iff.rfl
    (fun hg => hp2 _ _ hg.1 hg.2) (fun _ => rfl)) (fun _ => rfl)

/-- Two concrete 4×4 images with different pixel functions that agree on
every in-bounds pixel. -/
def smallA : Image := Image.new 4 4 (1, 2, 3)

/-- See `smallA`: same in-bounds content, different out-of-bounds values. -/
def smallB : Image :=
  { width := 4, height := 4
    pix := fun x y => if x < 4 ∧ y < 4 then (1, 2, 3) else (9, 9, 9) }

/-- C7 witness: the two runs on `smallA` and `smallB` (equal decoded pixel
content) agree at the output pixel (100,50). -/
theorem conversion_deterministic_witness :
    convert smallA = some (final_im smallA) ∧
    convert smallB = some (final_im smallB) ∧
    (final_im smallA).pix 100 50 = (final_im smallB).pix 100 50 :=
  conversion_deterministic smallA smallB rfl rfl
    (fun _ _ hx hy => (if_pos ⟨hx, hy⟩).symm) 100 50
